import Mathlib

/-!
Shallow embedding of the Bounce-classic game core (client game logic and the
reducer-style state machine) and verification of its specification claims.

Numeric model: JavaScript numbers are embedded as exact rationals (`ℚ`); all
arithmetic appearing in the verified code paths (+, -, *, /, max, min, abs,
floor, comparisons) is exact, so `ℚ` is a faithful idealisation.  The one
transcendental operation (`Math.cos`/`Math.sin` in `launchBall`) is embedded
over `ℝ` for the launch claim, and abstracted by an oracle parameter where the
reducer merely stores the launched ball.
-/

namespace Bounce

/-- Game phase, from `src/client/types/game.ts` (`enum GameState`). -/
inductive GameState where
  | MENU
  | AIMING
  | PLAYING
  | PAUSED
  | GAME_OVER
  | LEVEL_COMPLETE
deriving DecidableEq, Repr

/-- Bounce surface, from the `BALL_BOUNCE` payload type in `game.ts`. -/
inductive Surface where
  | platform
  | wall
  | ceiling
  | floor
deriving DecidableEq, Repr

structure BallPosition where
  x : ℚ
  y : ℚ
deriving DecidableEq, Repr

structure BallVelocity where
  vx : ℚ
  vy : ℚ
deriving DecidableEq, Repr

structure BallPhysics where
  position : BallPosition
  velocity : BallVelocity
  radius : ℚ
  gravity : ℚ
  bounceCoefficient : ℚ
  maxVelocity : ℚ
deriving DecidableEq, Repr

structure Platform where
  x : ℚ
  y : ℚ
  width : ℚ
  height : ℚ
  speed : ℚ
deriving DecidableEq, Repr

structure LevelConfig where
  level : ℚ
  ballSpeed : ℚ
  platformWidth : ℚ
  platformSpeed : ℚ
  gravity : ℚ
  bounceCoefficient : ℚ
  targetBounces : ℚ
  timeLimit : ℚ
deriving DecidableEq, Repr

instance : Inhabited LevelConfig := ⟨⟨0, 0, 0, 0, 0, 0, 0, 0⟩⟩

structure GameConfig where
  canvasWidth : ℚ
  canvasHeight : ℚ
  ballRadius : ℚ
  platformHeight : ℚ
  platformY : ℚ
  maxVelocity : ℚ
  initialBallY : ℚ
  levels : List LevelConfig
deriving DecidableEq, Repr

structure CollisionState where
  wall : Bool
  ceiling : Bool
  platform : Bool
  floor : Bool
  hitPosition : ℚ
deriving DecidableEq, Repr

structure ScoreData where
  score : ℚ
  lives : ℚ
  level : ℚ
  highScore : ℚ
  bounceCount : ℚ
  timeElapsed : ℚ
  multiplier : ℚ
  consecutiveBounces : ℚ
  comboCount : ℚ
deriving DecidableEq, Repr

structure AimData where
  angle : ℚ
  power : ℚ
  startX : ℚ
  startY : ℚ
  endX : ℚ
  endY : ℚ
deriving DecidableEq, Repr

inductive InputType where
  | mouse
  | touch
  | keyboard
deriving DecidableEq, Repr

structure ControlState where
  inputType : InputType
  isDragging : Bool
  dragStartX : ℚ
  dragStartY : ℚ
  currentX : ℚ
  currentY : ℚ
  platformTargetX : ℚ
  keyboardLeft : Bool
  keyboardRight : Bool
deriving DecidableEq, Repr

/-- `Partial<ScoreData>` — a JS object-spread patch; `none` = field absent. -/
structure ScoreDataPatch where
  score : Option ℚ := none
  lives : Option ℚ := none
  level : Option ℚ := none
  highScore : Option ℚ := none
  bounceCount : Option ℚ := none
  timeElapsed : Option ℚ := none
  multiplier : Option ℚ := none
  consecutiveBounces : Option ℚ := none
  comboCount : Option ℚ := none
deriving DecidableEq, Repr

/-- JS `{ ...sd, ...p }`: fields present in the patch override. -/
def applyScorePatch (sd : ScoreData) (p : ScoreDataPatch) : ScoreData :=
  { score := p.score.getD sd.score
    lives := p.lives.getD sd.lives
    level := p.level.getD sd.level
    highScore := p.highScore.getD sd.highScore
    bounceCount := p.bounceCount.getD sd.bounceCount
    timeElapsed := p.timeElapsed.getD sd.timeElapsed
    multiplier := p.multiplier.getD sd.multiplier
    consecutiveBounces := p.consecutiveBounces.getD sd.consecutiveBounces
    comboCount := p.comboCount.getD sd.comboCount }

/-- `Partial<AimData>`. -/
structure AimDataPatch where
  angle : Option ℚ := none
  power : Option ℚ := none
  startX : Option ℚ := none
  startY : Option ℚ := none
  endX : Option ℚ := none
  endY : Option ℚ := none
deriving DecidableEq, Repr

def applyAimPatch (a : AimData) (p : AimDataPatch) : AimData :=
  { angle := p.angle.getD a.angle
    power := p.power.getD a.power
    startX := p.startX.getD a.startX
    startY := p.startY.getD a.startY
    endX := p.endX.getD a.endX
    endY := p.endY.getD a.endY }

/-- `Partial<ControlState>`. -/
structure ControlStatePatch where
  inputType : Option InputType := none
  isDragging : Option Bool := none
  dragStartX : Option ℚ := none
  dragStartY : Option ℚ := none
  currentX : Option ℚ := none
  currentY : Option ℚ := none
  platformTargetX : Option ℚ := none
  keyboardLeft : Option Bool := none
  keyboardRight : Option Bool := none
deriving DecidableEq, Repr

def applyControlPatch (c : ControlState) (p : ControlStatePatch) : ControlState :=
  { inputType := p.inputType.getD c.inputType
    isDragging := p.isDragging.getD c.isDragging
    dragStartX := p.dragStartX.getD c.dragStartX
    dragStartY := p.dragStartY.getD c.dragStartY
    currentX := p.currentX.getD c.currentX
    currentY := p.currentY.getD c.currentY
    platformTargetX := p.platformTargetX.getD c.platformTargetX
    keyboardLeft := p.keyboardLeft.getD c.keyboardLeft
    keyboardRight := p.keyboardRight.getD c.keyboardRight }

/-! ### gameLogic.ts: constructors -/

/-- `createLevelConfigs` from `gameLogic.ts`. -/
def createLevelConfigs : List LevelConfig :=
  [ { level := 1, ballSpeed := 8, platformWidth := 100, platformSpeed := 8,
      gravity := 9.8, bounceCoefficient := 0.75, targetBounces := 10, timeLimit := 60 },
    { level := 2, ballSpeed := 10, platformWidth := 90, platformSpeed := 9,
      gravity := 10, bounceCoefficient := 0.78, targetBounces := 12, timeLimit := 55 },
    { level := 3, ballSpeed := 12, platformWidth := 80, platformSpeed := 10,
      gravity := 10.2, bounceCoefficient := 0.8, targetBounces := 15, timeLimit := 50 },
    { level := 4, ballSpeed := 14, platformWidth := 70, platformSpeed := 11,
      gravity := 10.5, bounceCoefficient := 0.82, targetBounces := 18, timeLimit := 45 },
    { level := 5, ballSpeed := 16, platformWidth := 60, platformSpeed := 12,
      gravity := 10.8, bounceCoefficient := 0.85, targetBounces := 20, timeLimit := 40 } ]

/-- `createDefaultGameConfig` from `gameLogic.ts`. -/
def createDefaultGameConfig : GameConfig :=
  { canvasWidth := 800
    canvasHeight := 600
    ballRadius := 20
    platformHeight := 15
    platformY := 50
    maxVelocity := 20
    initialBallY := 0
    levels := createLevelConfigs }

/-- `createInitialBallPhysics` from `gameLogic.ts`. -/
def createInitialBallPhysics (config : GameConfig) (levelConfig : LevelConfig) : BallPhysics :=
  let initialY := config.canvasHeight - config.platformY - config.platformHeight - config.ballRadius - 10
  { position := { x := config.canvasWidth / 2, y := initialY }
    velocity := { vx := 0, vy := 0 }
    radius := config.ballRadius
    gravity := levelConfig.gravity
    bounceCoefficient := levelConfig.bounceCoefficient
    maxVelocity := config.maxVelocity }

/-- `createInitialPlatform` from `gameLogic.ts`. -/
def createInitialPlatform (config : GameConfig) (levelConfig : LevelConfig) : Platform :=
  { x := config.canvasWidth / 2
    y := config.canvasHeight - config.platformY
    width := levelConfig.platformWidth
    height := config.platformHeight
    speed := levelConfig.platformSpeed }

/-- `createInitialCollisionState` from `gameLogic.ts`. -/
def createInitialCollisionState : CollisionState :=
  { wall := false, ceiling := false, platform := false, floor := false, hitPosition := 0 }

/-- `createInitialScoreData` from `gameLogic.ts`. -/
def createInitialScoreData : ScoreData :=
  { score := 0, lives := 3, level := 1, highScore := 0, bounceCount := 0,
    timeElapsed := 0, multiplier := 1, consecutiveBounces := 0, comboCount := 0 }

/-- `createInitialAimData` from `gameLogic.ts`. -/
def createInitialAimData (config : GameConfig) : AimData :=
  { angle := 45
    power := 8
    startX := config.canvasWidth / 2
    startY := config.canvasHeight - config.platformY - config.platformHeight - config.ballRadius
    endX := config.canvasWidth / 2
    endY := config.canvasHeight - config.platformY - config.platformHeight - config.ballRadius }

/-- `createInitialControlState` from `gameLogic.ts`. -/
def createInitialControlState : ControlState :=
  { inputType := InputType.mouse, isDragging := false, dragStartX := 0, dragStartY := 0,
    currentX := 0, currentY := 0, platformTargetX := 0,
    keyboardLeft := false, keyboardRight := false }

/-! ### gameLogic.ts: physics and collisions -/

/-- `clamp(value, min, max) = Math.max(min, Math.min(value, max))`. -/
def clamp (value lo hi : ℚ) : ℚ :=
  max lo (min value hi)

/-- `updateBallPhysics(ball, deltaTime)` from `gameLogic.ts`.  The source
mutates `velocity.vy` before integrating the position, so the new `y` uses the
post-gravity vertical velocity; both velocity components are then clamped to
`[-maxVelocity, maxVelocity]`. -/
def updateBallPhysics (ball : BallPhysics) (deltaTime : ℚ) : BallPhysics :=
  let vy1 := ball.velocity.vy + ball.gravity * deltaTime * 0.1
  let newX := ball.position.x + ball.velocity.vx * deltaTime
  let newY := ball.position.y + vy1 * deltaTime
  { ball with
    position := { x := newX, y := newY }
    velocity :=
      { vx := clamp ball.velocity.vx (-ball.maxVelocity) ball.maxVelocity
        vy := clamp vy1 (-ball.maxVelocity) ball.maxVelocity } }

/-- Result of `checkWallCollision`: the returned `{hit, newVelocity}` plus the
in-place mutation of `ball.position.x` (the source clamps the coordinate on
the ball object itself). -/
structure WallCollisionResult where
  hit : Bool
  newVelocity : BallVelocity
  posX : ℚ
deriving DecidableEq, Repr

/-- `checkWallCollision(ball, config)` from `gameLogic.ts`. -/
def checkWallCollision (ball : BallPhysics) (config : GameConfig) : WallCollisionResult :=
  if ball.position.x - ball.radius < 0 then
    { hit := true
      newVelocity := { vx := ball.velocity.vx * (-ball.bounceCoefficient), vy := ball.velocity.vy }
      posX := ball.radius }
  else if ball.position.x + ball.radius > config.canvasWidth then
    { hit := true
      newVelocity := { vx := ball.velocity.vx * (-ball.bounceCoefficient), vy := ball.velocity.vy }
      posX := config.canvasWidth - ball.radius }
  else
    { hit := false, newVelocity := ball.velocity, posX := ball.position.x }

/-- Result of `checkCeilingCollision`, analogous to `WallCollisionResult`. -/
structure CeilingCollisionResult where
  hit : Bool
  newVelocity : BallVelocity
  posY : ℚ
deriving DecidableEq, Repr

/-- `checkCeilingCollision(ball)` from `gameLogic.ts`. -/
def checkCeilingCollision (ball : BallPhysics) : CeilingCollisionResult :=
  if ball.position.y - ball.radius < 0 then
    { hit := true
      newVelocity := { vx := ball.velocity.vx, vy := ball.velocity.vy * (-ball.bounceCoefficient) }
      posY := ball.radius }
  else
    { hit := false, newVelocity := ball.velocity, posY := ball.position.y }

/-- Result of `checkPlatformCollision`: `{hit, newVelocity, hitPosition}` plus
the in-place snap of `ball.position.y` onto the platform top. -/
structure PlatformCollisionResult where
  hit : Bool
  newVelocity : BallVelocity
  hitPosition : ℚ
  posY : ℚ
deriving DecidableEq, Repr

/-- `checkPlatformCollision(ball, platform)` from `gameLogic.ts`.  On a hit the
vertical velocity is reflected and damped, and the horizontal velocity gains
`hitPosition * 2`, with `hitPosition = (x - platform.x) / (width/2)`. -/
def checkPlatformCollision (ball : BallPhysics) (platform : Platform) : PlatformCollisionResult :=
  if ball.position.x + ball.radius > platform.x - platform.width / 2 ∧
     ball.position.x - ball.radius < platform.x + platform.width / 2 ∧
     ball.position.y + ball.radius > platform.y - platform.height / 2 ∧
     ball.position.y - ball.radius < platform.y + platform.height / 2 ∧
     ball.velocity.vy > 0 then
    let posY := platform.y - platform.height / 2 - ball.radius
    let hitPoint := ball.position.x - platform.x
    let hitPosition := hitPoint / (platform.width / 2)
    { hit := true
      newVelocity :=
        { vx := ball.velocity.vx + hitPosition * 2
          vy := ball.velocity.vy * (-ball.bounceCoefficient) }
      hitPosition := hitPosition
      posY := posY }
  else
    { hit := false, newVelocity := ball.velocity, hitPosition := 0, posY := ball.position.y }

/-- `checkFloorCollision(ball, config)` from `gameLogic.ts`. -/
def checkFloorCollision (ball : BallPhysics) (config : GameConfig) : Bool :=
  if ball.position.y + ball.radius > config.canvasHeight then true else false

/-- `updatePlatformPosition(platform, targetX, config)` from `gameLogic.ts`. -/
def updatePlatformPosition (platform : Platform) (targetX : ℚ) (config : GameConfig) : Platform :=
  let halfWidth := platform.width / 2
  let minX := halfWidth
  let maxX := config.canvasWidth - halfWidth
  { platform with x := clamp targetX (minX + 10) (maxX - 10) }

/-- `launchBall(ball, angle, power, config)` from `gameLogic.ts`, with the
trigonometric functions abstracted by a degree-indexed oracle
(`cosDeg`/`sinDeg` stand for `Math.cos`/`Math.sin` composed with the
degree-to-radian conversion `angle * π / 180`). -/
def launchBall (cosDeg sinDeg : ℚ → ℚ) (ball : BallPhysics) (angle power : ℚ)
    (config : GameConfig) : BallPhysics :=
  let launchSpeed := power * (config.maxVelocity / 100)
  { ball with
    velocity :=
      { vx := launchSpeed * cosDeg angle
        vy := -launchSpeed * sinDeg angle } }

/-! ### gameLogic.ts: scoring -/

/-- `calculateBounceScore(surface, hitPosition, multiplier)` from
`gameLogic.ts`; the floored result is re-read as a rational because JS
`Math.floor` returns a number fed back into rational score arithmetic. -/
def calculateBounceScore (surface : Surface) (hitPosition multiplier : ℚ) : ℚ :=
  let baseScore : ℚ := 10
  let bonus : ℚ := if surface = Surface.platform then max 0 (1 - |hitPosition|) * 5 else 0
  ((⌊(baseScore + bonus) * multiplier⌋ : ℤ) : ℚ)

/-- `calculateComboMultiplier(consecutiveBounces)` from `gameLogic.ts`. -/
def calculateComboMultiplier (consecutiveBounces : ℚ) : ℚ :=
  if consecutiveBounces ≤ 1 then 1
  else if consecutiveBounces ≤ 3 then 1.5
  else if consecutiveBounces ≤ 5 then 2
  else if consecutiveBounces ≤ 10 then 2.5
  else 3

/-- `calculateTimeBonus(timeElapsed, timeLimit)` from `gameLogic.ts`. -/
def calculateTimeBonus (timeElapsed timeLimit : ℚ) : ℚ :=
  ((⌊max 0 (timeLimit - timeElapsed) * 2⌋ : ℤ) : ℚ)

/-- `updateScoreData(currentScore, bounceScore, surface, hitPosition)` from
`gameLogic.ts`. -/
def updateScoreData (currentScore : ScoreData) (bounceScore : ℚ) (surface : Surface)
    (_hitPosition : ℚ) : ScoreData :=
  let newConsecutiveBounces :=
    if surface = Surface.platform then currentScore.consecutiveBounces + 1 else 0
  let newMultiplier := calculateComboMultiplier newConsecutiveBounces
  let newComboCount :=
    if newConsecutiveBounces > currentScore.consecutiveBounces then
      currentScore.comboCount + 1
    else currentScore.comboCount
  { currentScore with
    score := currentScore.score + bounceScore
    bounceCount := currentScore.bounceCount + 1
    consecutiveBounces := newConsecutiveBounces
    multiplier := newMultiplier
    comboCount := newComboCount }

/-- `resetCombo(scoreData)` from `gameLogic.ts`. -/
def resetCombo (scoreData : ScoreData) : ScoreData :=
  { scoreData with consecutiveBounces := 0, multiplier := 1 }

/-- `loseLife(scoreData)` from `gameLogic.ts`. -/
def loseLife (scoreData : ScoreData) : ScoreData :=
  { scoreData with lives := max 0 (scoreData.lives - 1) }

/-- `nextLevel(scoreData)` from `gameLogic.ts`. -/
def nextLevel (scoreData : ScoreData) : ScoreData :=
  { scoreData with
    level := scoreData.level + 1
    bounceCount := 0
    timeElapsed := 0
    consecutiveBounces := 0
    multiplier := 1 }

/-- `updateHighScore(scoreData)` from `gameLogic.ts`. -/
def updateHighScore (scoreData : ScoreData) : ScoreData :=
  { scoreData with highScore := max scoreData.highScore scoreData.score }

/-! ### The state machine (`useGameState` in the hooks file) -/

/-- The reducer's aggregate state.  This mirrors the object built by
`createInitialGameData` in the `useGameState` hook: exactly the eleven fields
the reducer reads and writes.  (The broader `GameData` interface in `game.ts`
also declares `shieldBounces` and power-up/obstacle collections, but the
reducer never initialises or updates any of them — every action touching them,
including `UPDATE_SHIELD_BOUNCES`, falls through to the `default` case.) -/
structure GameData where
  gameState : GameState
  scoreData : ScoreData
  ballPhysics : BallPhysics
  platform : Platform
  config : GameConfig
  collisionState : CollisionState
  currentLevel : LevelConfig
  levelStartTime : ℚ
  lastBounceTime : ℚ
  aimData : AimData
  controlState : ControlState
deriving DecidableEq, Repr

/-- `createInitialGameData()` from the `useGameState` hook; `levels[0]` is the
head of the concrete five-level list. -/
def createInitialGameData : GameData :=
  let config := createDefaultGameConfig
  let levelConfig := config.levels.headI
  { gameState := GameState.MENU
    scoreData := createInitialScoreData
    ballPhysics := createInitialBallPhysics config levelConfig
    platform := createInitialPlatform config levelConfig
    config := config
    collisionState := createInitialCollisionState
    currentLevel := levelConfig
    levelStartTime := 0
    lastBounceTime := 0
    aimData := createInitialAimData config
    controlState := createInitialControlState }

/-- The actions dispatched to the reducer (`GameAction` in `game.ts`),
restricted to the constructors the reducer has a case for, plus
`UPDATE_SHIELD_BOUNCES` and `SET_MAGNETIC_RANGE` which — like every remaining
constructor of the TS union — hit the reducer's `default` branch and leave the
state unchanged.  The optional `hitPosition` of `BALL_BOUNCE` is embedded as a
plain rational: the reducer only ever reads it as `payload.hitPosition || 0`. -/
inductive GameAction where
  | START_GAME
  | ENTER_AIMING
  | LAUNCH_BALL (angle power : ℚ)
  | PAUSE_GAME
  | RESUME_GAME
  | RESET_GAME
  | UPDATE_BALL_PHYSICS (payload : BallPhysics)
  | UPDATE_PLATFORM_POSITION (payload : ℚ)
  | UPDATE_SCORE (payload : ScoreDataPatch)
  | SET_GAME_STATE (payload : GameState)
  | SET_COLLISION_STATE (payload : CollisionState)
  | BALL_BOUNCE (surface : Surface) (hitPosition : ℚ)
  | LOSE_LIFE
  | NEXT_LEVEL
  | GAME_OVER
  | UPDATE_TIME
  | RESET_COMBO
  | UPDATE_AIM_DATA (payload : AimDataPatch)
  | UPDATE_CONTROL_STATE (payload : ControlStatePatch)
  | UPDATE_SHIELD_BOUNCES (payload : ℚ)
  | SET_MAGNETIC_RANGE (payload : ℚ)
deriving DecidableEq, Repr

/-- The reducer switch inside `useGameState`'s `dispatch`.  `cosDeg`/`sinDeg`
abstract `Math.cos`/`Math.sin` (in degrees) for `LAUNCH_BALL`; `now` is the
value of `Date.now()` at dispatch time (the source reads it for
`levelStartTime`, `lastBounceTime` and `UPDATE_TIME`). -/
def dispatch (cosDeg sinDeg : ℚ → ℚ) (now : ℚ) (prev : GameData) :
    GameAction → GameData
  | GameAction.START_GAME =>
    let config := createDefaultGameConfig
    let levelConfig := config.levels.headI
    { prev with
      gameState := GameState.AIMING
      scoreData := createInitialScoreData
      ballPhysics := createInitialBallPhysics config levelConfig
      platform := createInitialPlatform config levelConfig
      config := config
      collisionState := createInitialCollisionState
      currentLevel := levelConfig
      levelStartTime := now
      lastBounceTime := 0
      aimData := createInitialAimData config
      controlState := createInitialControlState }
  | GameAction.ENTER_AIMING => { prev with gameState := GameState.AIMING }
  | GameAction.LAUNCH_BALL angle power =>
    { prev with
      gameState := GameState.PLAYING
      ballPhysics := launchBall cosDeg sinDeg prev.ballPhysics angle power prev.config
      levelStartTime := now }
  | GameAction.PAUSE_GAME => { prev with gameState := GameState.PAUSED }
  | GameAction.RESUME_GAME => { prev with gameState := GameState.PLAYING }
  | GameAction.RESET_GAME =>
    let resetConfig := createDefaultGameConfig
    let resetLevelConfig := resetConfig.levels.headI
    { prev with
      gameState := GameState.MENU
      scoreData := createInitialScoreData
      ballPhysics := createInitialBallPhysics resetConfig resetLevelConfig
      platform := createInitialPlatform resetConfig resetLevelConfig
      config := resetConfig
      collisionState := createInitialCollisionState
      currentLevel := resetLevelConfig
      levelStartTime := 0
      lastBounceTime := 0
      aimData := createInitialAimData resetConfig
      controlState := createInitialControlState }
  | GameAction.UPDATE_BALL_PHYSICS payload => { prev with ballPhysics := payload }
  | GameAction.UPDATE_PLATFORM_POSITION payload =>
    { prev with platform := updatePlatformPosition prev.platform payload prev.config }
  | GameAction.UPDATE_SCORE payload =>
    { prev with scoreData := applyScorePatch prev.scoreData payload }
  | GameAction.SET_GAME_STATE payload => { prev with gameState := payload }
  | GameAction.SET_COLLISION_STATE payload => { prev with collisionState := payload }
  | GameAction.BALL_BOUNCE surface hitPosition =>
    let bounceScore := calculateBounceScore surface hitPosition prev.scoreData.multiplier
    let newScoreData := updateScoreData prev.scoreData bounceScore surface hitPosition
    { prev with scoreData := newScoreData, lastBounceTime := now }
  | GameAction.LOSE_LIFE =>
    let updatedScoreData := loseLife prev.scoreData
    let newGameState :=
      if updatedScoreData.lives ≤ 0 then GameState.GAME_OVER else GameState.AIMING
    { prev with
      scoreData := updatedScoreData
      gameState := newGameState
      ballPhysics := createInitialBallPhysics prev.config prev.currentLevel }
  | GameAction.NEXT_LEVEL =>
    match prev.config.levels.find? (fun l => l.level = prev.scoreData.level + 1) with
    | none =>
      { prev with
        gameState := GameState.GAME_OVER
        scoreData := updateHighScore prev.scoreData }
    | some nextLevelConfig =>
      { prev with
        gameState := GameState.AIMING
        scoreData := nextLevel prev.scoreData
        ballPhysics := createInitialBallPhysics prev.config nextLevelConfig
        platform := createInitialPlatform prev.config nextLevelConfig
        currentLevel := nextLevelConfig
        levelStartTime := now
        lastBounceTime := 0
        aimData := createInitialAimData prev.config }
  | GameAction.GAME_OVER =>
    { prev with
      gameState := GameState.GAME_OVER
      scoreData := updateHighScore prev.scoreData }
  | GameAction.UPDATE_TIME =>
    { prev with scoreData := { prev.scoreData with timeElapsed := (now - prev.levelStartTime) / 1000 } }
  | GameAction.RESET_COMBO => { prev with scoreData := resetCombo prev.scoreData }
  | GameAction.UPDATE_AIM_DATA payload =>
    { prev with aimData := applyAimPatch prev.aimData payload }
  | GameAction.UPDATE_CONTROL_STATE payload =>
    { prev with controlState := applyControlPatch prev.controlState payload }
  | GameAction.UPDATE_SHIELD_BOUNCES _ => prev
  | GameAction.SET_MAGNETIC_RANGE _ => prev

/-! ### The per-tick update (`gameLoop` inside `useGameState`)

The loop body threads the ball through the physics update and the
platform → wall → ceiling collision checks (each check both returns a new
velocity installed by the caller and adjusts one position coordinate in place),
queueing a `BALL_BOUNCE` dispatch for each hit (plus `RESET_COMBO` after wall
and ceiling hits), then checks the floor (dispatching `LOSE_LIFE`) and the
target-bounce completion (dispatching `NEXT_LEVEL`).  The queued dispatches
are applied by React after the loop's own state update, so the net effect of a
tick is the loop's returned state folded through `dispatch` over the queued
actions, in order. -/

/-- The collision phase of one tick: the ball after physics + collision
resolution, the queued bounce actions (in dispatch order), and the updated
collision flags. -/
def tickCollisions (prev : GameData) (deltaTime : ℚ) :
    BallPhysics × List GameAction × CollisionState :=
  let ball1 := updateBallPhysics prev.ballPhysics deltaTime
  let pc := checkPlatformCollision ball1 prev.platform
  let ball2 :=
    if pc.hit then
      { ball1 with position := { ball1.position with y := pc.posY }, velocity := pc.newVelocity }
    else ball1
  let acts1 : List GameAction :=
    if pc.hit then [GameAction.BALL_BOUNCE Surface.platform pc.hitPosition] else []
  let cs1 : CollisionState :=
    if pc.hit then
      { prev.collisionState with platform := true, hitPosition := pc.hitPosition }
    else { prev.collisionState with platform := false }
  let wc := checkWallCollision ball2 prev.config
  let ball3 :=
    if wc.hit then
      { ball2 with position := { ball2.position with x := wc.posX }, velocity := wc.newVelocity }
    else ball2
  let acts2 :=
    if wc.hit then acts1 ++ [GameAction.BALL_BOUNCE Surface.wall 0, GameAction.RESET_COMBO]
    else acts1
  let cs2 := { cs1 with wall := wc.hit }
  let cc := checkCeilingCollision ball3
  let ball4 :=
    if cc.hit then
      { ball3 with position := { ball3.position with y := cc.posY }, velocity := cc.newVelocity }
    else ball3
  let acts3 :=
    if cc.hit then acts2 ++ [GameAction.BALL_BOUNCE Surface.ceiling 0, GameAction.RESET_COMBO]
    else acts2
  let cs3 := { cs2 with ceiling := cc.hit }
  (ball4, acts3, cs3)

/-- In the branches where the source `gameLoop` executes `return prev`, the
returned object is not the pre-tick state verbatim: `updateBallPhysics` and the
position corrections of the collision checks mutate the ball's `position` and
`velocity` objects in place, and those objects are shared with `prev`.  The
velocity reflections, by contrast, live only on fresh objects installed into
the local `newBallPhysics`, so `prev` keeps the post-gravity, pre-reflection
velocity. -/
def prevWithMutatedBall (prev : GameData) (deltaTime : ℚ) : GameData :=
  let ball1 := updateBallPhysics prev.ballPhysics deltaTime
  let finalBall := (tickCollisions prev deltaTime).1
  { prev with
    ballPhysics := { prev.ballPhysics with position := finalBall.position, velocity := ball1.velocity } }

/-- One invocation of the `setGameData` updater inside `gameLoop`: the state it
returns together with the list of actions it dispatched, in order.  `now` is
`Date.now()` during the tick. -/
def gameTick (prev : GameData) (deltaTime now : ℚ) : GameData × List GameAction :=
  if prev.gameState ≠ GameState.PLAYING then (prev, [])
  else
    let timeElapsed := (now - prev.levelStartTime) / 1000
    if timeElapsed ≥ prev.currentLevel.timeLimit then (prev, [GameAction.LOSE_LIFE])
    else
      let res := tickCollisions prev deltaTime
      let ball4 := res.1
      let acts := res.2.1
      let cs3 := res.2.2
      if checkFloorCollision ball4 prev.config then
        (prevWithMutatedBall prev deltaTime, acts ++ [GameAction.LOSE_LIFE])
      else if prev.scoreData.bounceCount ≥ prev.currentLevel.targetBounces then
        (prevWithMutatedBall prev deltaTime, acts ++ [GameAction.NEXT_LEVEL])
      else
        ({ prev with
            ballPhysics := ball4
            collisionState := { cs3 with floor := false }
            scoreData := { prev.scoreData with timeElapsed := timeElapsed } },
         acts)

/-- Net effect of one tick once React applies the queued dispatches (each
queued action is reduced against the state the loop returned, in order). -/
def tickNet (cosDeg sinDeg : ℚ → ℚ) (prev : GameData) (deltaTime now : ℚ) : GameData :=
  let res := gameTick prev deltaTime now
  res.2.foldl (dispatch cosDeg sinDeg now) res.1

/-! ### Real-valued launch (for the exact-trigonometry launch claim) -/

structure BallPositionR where
  x : ℝ
  y : ℝ

structure BallVelocityR where
  vx : ℝ
  vy : ℝ

/-- Real-valued mirror of `BallPhysics`, used to state the launch claim with
exact trigonometry (`Real.cos`/`Real.sin` in place of `Math.cos`/`Math.sin`). -/
structure BallPhysicsR where
  position : BallPositionR
  velocity : BallVelocityR
  radius : ℝ
  gravity : ℝ
  bounceCoefficient : ℝ
  maxVelocity : ℝ

/-- `launchBall` over `ℝ` with exact trigonometry; `maxVelocity` stands for
`config.maxVelocity`. -/
noncomputable def launchBallR (ball : BallPhysicsR) (angle power maxVelocity : ℝ) :
    BallPhysicsR :=
  let launchSpeed := power * (maxVelocity / 100)
  let angleRad := angle * Real.pi / 180
  { ball with
    velocity :=
      { vx := launchSpeed * Real.cos angleRad
        vy := -launchSpeed * Real.sin angleRad } }

/-! ### Auxiliary definitions for concrete scenarios -/

/-- A fixed trigonometry oracle for scenarios whose outcome does not depend on
launch trigonometry. -/
def zeroOracle : ℚ → ℚ := fun _ => 0

/-- The reducer's `BALL_BOUNCE` score update for one bounce event, as performed
by the dispatch case (`calculateBounceScore` with the stored multiplier, then
`updateScoreData`). -/
def bounceStep (sd : ScoreData) (surface : Surface) (hitPosition : ℚ) : ScoreData :=
  updateScoreData sd (calculateBounceScore surface hitPosition sd.multiplier) surface hitPosition

/-- The stored `multiplier` observed after each bounce event of a sequence,
starting from a given score state. -/
def multiplierTrace (sd : ScoreData) : List Surface → List ℚ
  | [] => []
  | s :: rest =>
    let sd' := bounceStep sd s 0
    sd'.multiplier :: multiplierTrace sd' rest

/-- A PLAYING state with one life left, score 10, high score 0, and the ball
about to cross the floor on the next tick (it is low on the screen, below the
platform band, moving downward). -/
def floorTickState : GameData :=
  { createInitialGameData with
    gameState := GameState.PLAYING
    scoreData := { createInitialScoreData with lives := 1, score := 10 }
    ballPhysics :=
      { createInitialGameData.ballPhysics with
        position := { x := 400, y := 595 }
        velocity := { vx := 0, vy := 5 } } }

/-- The same floor-crossing scenario with the full three lives. -/
def shieldFloorState : GameData :=
  { floorTickState with scoreData := createInitialScoreData }

/-- A ball whose horizontal velocity exceeds its velocity limit. -/
def fastBall : BallPhysics :=
  { position := { x := 0, y := 0 }
    velocity := { vx := 30, vy := 0 }
    radius := 20
    gravity := 9.8
    bounceCoefficient := 0.75
    maxVelocity := 20 }

/-- A reachable state with a three-platform-bounce combo: `START_GAME`
followed by three platform `BALL_BOUNCE` events. -/
def comboState : GameData :=
  [GameAction.BALL_BOUNCE Surface.platform 0,
   GameAction.BALL_BOUNCE Surface.platform 0,
   GameAction.BALL_BOUNCE Surface.platform 0].foldl
    (dispatch zeroOracle zeroOracle 0)
    (dispatch zeroOracle zeroOracle 0 createInitialGameData GameAction.START_GAME)

/-- An `UPDATE_SCORE` payload that overrides only the stored multiplier. -/
def multiplierOnlyPatch : ScoreDataPatch := { multiplier := some 7 }

/-- The spec wording of the platform center-proximity bonus (§4.3): platform
hits earn `max(0, 1 − |hitPosition|) * 5`; wall, ceiling and floor earn no
bonus. -/
def specBounceBonus (surface : Surface) (hitPosition : ℚ) : ℚ :=
  match surface with
  | Surface.platform => max 0 (1 - |hitPosition|) * 5
  | Surface.wall => 0
  | Surface.ceiling => 0
  | Surface.floor => 0

/-- Actions whose `UPDATE_SCORE` payload does not override the stored
`multiplier` or `consecutiveBounces`.  Every `UPDATE_SCORE` dispatched in the
repository sets only `score`, so all actions the program actually emits are
safe in this sense. -/
def safeAction : GameAction → Prop
  | GameAction.UPDATE_SCORE p => p.multiplier = none ∧ p.consecutiveBounces = none
  | _ => True

/-- States reachable from the initial state through `dispatch`, restricted to
safe actions (any trigonometry oracle and any timestamp at every step). -/
inductive ReachableSafe : GameData → Prop
  | init : ReachableSafe createInitialGameData
  | step (cosDeg sinDeg : ℚ → ℚ) (now : ℚ) (a : GameAction) (st : GameData) :
      ReachableSafe st → safeAction a → ReachableSafe (dispatch cosDeg sinDeg now st a)

/-- The bounce-phase actions a tick can queue before its terminal
floor/completion checks: `BALL_BOUNCE` events and `RESET_COMBO`. -/
def isBounceAct : GameAction → Bool
  | GameAction.BALL_BOUNCE _ _ => true
  | GameAction.RESET_COMBO => true
  | _ => false

/-! ## Helper lemmas -/

theorem bounceAct_dispatch_preserves (cosDeg sinDeg : ℚ → ℚ) (now : ℚ) (st : GameData)
    (a : GameAction) (ha : isBounceAct a = true) :
    (dispatch cosDeg sinDeg now st a).scoreData.lives = st.scoreData.lives ∧
    (dispatch cosDeg sinDeg now st a).scoreData.highScore = st.scoreData.highScore ∧
    (dispatch cosDeg sinDeg now st a).gameState = st.gameState := by
  cases a <;> first
    | exact ⟨rfl, rfl, rfl⟩
    | simp [isBounceAct] at ha

theorem foldl_bounceActs_preserves (cosDeg sinDeg : ℚ → ℚ) (now : ℚ) :
    ∀ (acts : List GameAction), (∀ a ∈ acts, isBounceAct a = true) → ∀ st : GameData,
      (acts.foldl (dispatch cosDeg sinDeg now) st).scoreData.lives = st.scoreData.lives ∧
      (acts.foldl (dispatch cosDeg sinDeg now) st).scoreData.highScore = st.scoreData.highScore ∧
      (acts.foldl (dispatch cosDeg sinDeg now) st).gameState = st.gameState := by
  intro acts
  induction acts with
  | nil => exact fun _ st => ⟨rfl, rfl, rfl⟩
  | cons a rest ih =>
    intro h st
    have ha := bounceAct_dispatch_preserves cosDeg sinDeg now st a (h a (List.mem_cons_self _ _))
    have hrest := ih (fun b hb => h b (List.mem_cons_of_mem _ hb))
      (dispatch cosDeg sinDeg now st a)
    rw [List.foldl_cons]
    exact ⟨hrest.1.trans ha.1, hrest.2.1.trans ha.2.1, hrest.2.2.trans ha.2.2⟩

theorem tickCollisions_acts_bounce (prev : GameData) (deltaTime : ℚ) :
    ∀ a ∈ (tickCollisions prev deltaTime).2.1, isBounceAct a = true := by
  have hall : ((tickCollisions prev deltaTime).2.1).all isBounceAct = true := by
    simp only [tickCollisions]
    split_ifs <;> rfl
  exact fun a ha => List.all_eq_true.mp hall a ha

/-! ## Claim theorems -/

/-- C3 (counterexample): a reachable state with a three-bounce platform combo
loses a life (lives 3 → 2) via `LOSE_LIFE`, yet `consecutiveBounces` stays 3
instead of resetting to 0 — `loseLife` and the reducer's `LOSE_LIFE` case
never touch the combo counter. -/
theorem C3_life_loss_keeps_combo_counterexample :
    comboState.scoreData.consecutiveBounces = 3 ∧
    comboState.scoreData.lives = 3 ∧
    (dispatch zeroOracle zeroOracle 0 comboState GameAction.LOSE_LIFE).scoreData.lives = 2 ∧
    (dispatch zeroOracle zeroOracle 0 comboState GameAction.LOSE_LIFE).scoreData.consecutiveBounces
      = 3 := by
  simp [comboState, dispatch, createInitialGameData, createInitialScoreData,
    createDefaultGameConfig, createLevelConfigs, createInitialBallPhysics,
    createInitialPlatform, createInitialCollisionState, createInitialAimData,
    createInitialControlState, updateScoreData, calculateBounceScore,
    calculateComboMultiplier, loseLife, zeroOracle, launchBall]
  norm_num

/-- C3 (amended): for every state, a wall or ceiling `BALL_BOUNCE` sets
`consecutiveBounces` to 0, a platform `BALL_BOUNCE` increments it by exactly
1, `RESET_COMBO` sets it to 0 — but a `LOSE_LIFE` transition leaves it
unchanged. -/
theorem C3_combo_transitions (cosDeg sinDeg : ℚ → ℚ) (now : ℚ) (st : GameData)
    (hitPosition : ℚ) :
    (dispatch cosDeg sinDeg now st
        (GameAction.BALL_BOUNCE Surface.wall hitPosition)).scoreData.consecutiveBounces = 0 ∧
    (dispatch cosDeg sinDeg now st
        (GameAction.BALL_BOUNCE Surface.ceiling hitPosition)).scoreData.consecutiveBounces = 0 ∧
    (dispatch cosDeg sinDeg now st
        (GameAction.BALL_BOUNCE Surface.platform hitPosition)).scoreData.consecutiveBounces
      = st.scoreData.consecutiveBounces + 1 ∧
    (dispatch cosDeg sinDeg now st GameAction.RESET_COMBO).scoreData.consecutiveBounces = 0 ∧
    (dispatch cosDeg sinDeg now st GameAction.LOSE_LIFE).scoreData.consecutiveBounces
      = st.scoreData.consecutiveBounces := by
  refine ⟨rfl, rfl, ?_, rfl, rfl⟩
  simp [dispatch, updateScoreData]

/-- C4 (counterexample): from `consecutiveBounces = 0`, `multiplier = 1`, the
bounce sequence platform, platform, platform, wall, platform does NOT yield
the multiplier sequence `[1.5, 1.5, 2, 1, 1]` — `calculateComboMultiplier`
returns 1 for a streak of length 1, so the actual trace starts at 1. -/
theorem C4_multiplier_trace_counterexample :
    multiplierTrace createInitialScoreData
        [Surface.platform, Surface.platform, Surface.platform, Surface.wall, Surface.platform]
      ≠ [1.5, 1.5, 2, 1, 1] := by
  simp [multiplierTrace, bounceStep, updateScoreData, calculateBounceScore,
    calculateComboMultiplier, createInitialScoreData]
  norm_num

/-- C4 (amended): the same bounce sequence yields the stored multiplier
sequence `[1, 1.5, 1.5, 1, 1]` (the first platform hit of a streak keeps
multiplier 1, the wall hit resets to 1, and the restarted streak is again at
1). -/
theorem C4_multiplier_trace :
    multiplierTrace createInitialScoreData
        [Surface.platform, Surface.platform, Surface.platform, Surface.wall, Surface.platform]
      = [1, 1.5, 1.5, 1, 1] := by
  simp [multiplierTrace, bounceStep, updateScoreData, calculateBounceScore,
    calculateComboMultiplier, createInitialScoreData]
  norm_num

/-- C7 (counterexample): the integrator at `dt = 0` is not the identity: a
ball whose horizontal speed exceeds `maxVelocity` is clamped even though no
time passes. -/
theorem C7_dt_zero_clamps_counterexample :
    updateBallPhysics fastBall 0 ≠ fastBall := by
  simp [updateBallPhysics, fastBall, clamp]
  norm_num

/-- C7 (amended): the integrator at `dt = 0` returns the ball unchanged
provided both velocity components already lie within
`[-maxVelocity, maxVelocity]` (the unconditional final clamp is then the
identity). -/
theorem C7_dt_zero_identity (ball : BallPhysics)
    (hvx₁ : -ball.maxVelocity ≤ ball.velocity.vx) (hvx₂ : ball.velocity.vx ≤ ball.maxVelocity)
    (hvy₁ : -ball.maxVelocity ≤ ball.velocity.vy) (hvy₂ : ball.velocity.vy ≤ ball.maxVelocity) :
    updateBallPhysics ball 0 = ball := by
  obtain ⟨⟨x, y⟩, ⟨vx, vy⟩, r, g, bc, mv⟩ := ball
  simp only [updateBallPhysics, clamp] at hvx₁ hvx₂ hvy₁ hvy₂ ⊢
  simp only [mul_zero, zero_mul, add_zero, BallPhysics.mk.injEq, BallPosition.mk.injEq,
    BallVelocity.mk.injEq, and_true, true_and]
  constructor
  · rw [min_eq_left hvx₂]
    exact max_eq_right hvx₁
  · rw [min_eq_left hvy₂]
    exact max_eq_right hvy₁

/-- C7 witness: the amended identity applied to a concrete in-range ball. -/
theorem C7_dt_zero_identity_witness :
    updateBallPhysics
      { position := { x := 5, y := 6 }, velocity := { vx := 3, vy := -4 },
        radius := 20, gravity := 9.8, bounceCoefficient := 0.75, maxVelocity := 20 } 0
    = { position := { x := 5, y := 6 }, velocity := { vx := 3, vy := -4 },
        radius := 20, gravity := 9.8, bounceCoefficient := 0.75, maxVelocity := 20 } :=
  C7_dt_zero_identity _ (by decide) (by decide) (by decide) (by decide)

/-- C8 (confirmed): for every surface, hit position and multiplier, the bounce
score is `floor((10 + bonus) * multiplier)` where the bonus is
`max(0, 1 - |hitPosition|) * 5` for platform hits and 0 for wall, ceiling and
floor. -/
theorem C8_bounce_score_formula (surface : Surface) (hitPosition multiplier : ℚ) :
    calculateBounceScore surface hitPosition multiplier
      = ((⌊((10 : ℚ) + specBounceBonus surface hitPosition) * multiplier⌋ : ℤ) : ℚ) := by
  cases surface <;> rfl

/-- C10 (confirmed): every `BALL_BOUNCE` event — platform, wall, ceiling or
floor alike — increments `bounceCount` by exactly 1 and adds the computed
bounce score; wall and ceiling bounces therefore advance the same counter the
tick's `targetBounces` completion check reads. -/
theorem C10_bounce_counts_all_surfaces (cosDeg sinDeg : ℚ → ℚ) (now : ℚ) (st : GameData)
    (surface : Surface) (hitPosition : ℚ) :
    (dispatch cosDeg sinDeg now st
        (GameAction.BALL_BOUNCE surface hitPosition)).scoreData.bounceCount
      = st.scoreData.bounceCount + 1 ∧
    (dispatch cosDeg sinDeg now st
        (GameAction.BALL_BOUNCE surface hitPosition)).scoreData.score
      = st.scoreData.score
        + calculateBounceScore surface hitPosition st.scoreData.multiplier := by
  exact ⟨rfl, rfl⟩

/-- C6 (confirmed): wall-collision resolution never leaves the ball's x
outside `[radius, canvasWidth - radius]`, for any pre-collision position and
any velocity, provided the ball fits on the canvas (`2 * radius ≤ width`). -/
theorem C6_wall_collision_bounds (ball : BallPhysics) (config : GameConfig)
    (hfit : 2 * ball.radius ≤ config.canvasWidth) :
    ball.radius ≤ (checkWallCollision ball config).posX ∧
    (checkWallCollision ball config).posX ≤ config.canvasWidth - ball.radius := by
  unfold checkWallCollision
  split_ifs with h1 h2
  · refine ⟨le_refl _, ?_⟩
    show ball.radius ≤ config.canvasWidth - ball.radius
    linarith
  · refine ⟨?_, le_refl _⟩
    show ball.radius ≤ config.canvasWidth - ball.radius
    linarith
  · push_neg at h1 h2
    refine ⟨?_, ?_⟩
    · show ball.radius ≤ ball.position.x
      linarith
    · show ball.position.x ≤ config.canvasWidth - ball.radius
      linarith

/-- C6 witness: the bounds at a concrete ball and the default config. -/
theorem C6_wall_collision_bounds_witness :
    fastBall.radius ≤ (checkWallCollision fastBall createDefaultGameConfig).posX ∧
    (checkWallCollision fastBall createDefaultGameConfig).posX
      ≤ createDefaultGameConfig.canvasWidth - fastBall.radius :=
  C6_wall_collision_bounds fastBall createDefaultGameConfig
    (by norm_num [fastBall, createDefaultGameConfig])

/-- C9 (confirmed): launching any ball at angle 90° and power 100 yields
velocity `(0, -maxVelocity)` — straight up at maximum power (stated over `ℝ`
with exact trigonometry, the idealisation of `Math.cos`/`Math.sin`). -/
theorem C9_launch_straight_up (ball : BallPhysicsR) (maxVelocity : ℝ) :
    (launchBallR ball 90 100 maxVelocity).velocity.vx = 0 ∧
    (launchBallR ball 90 100 maxVelocity).velocity.vy = -maxVelocity := by
  have hrad : (90 : ℝ) * Real.pi / 180 = Real.pi / 2 := by ring
  constructor
  · show (100 : ℝ) * (maxVelocity / 100) * Real.cos ((90 : ℝ) * Real.pi / 180) = 0
    rw [hrad, Real.cos_pi_div_two, mul_zero]
  · show -((100 : ℝ) * (maxVelocity / 100)) * Real.sin ((90 : ℝ) * Real.pi / 180) = -maxVelocity
    rw [hrad, Real.sin_pi_div_two]
    ring

/-- C5 (counterexample): a single `UPDATE_SCORE` dispatch whose partial
payload overrides only `multiplier` reaches — directly from the initial state
— a state whose stored multiplier (7) is not the recomputation of
`calculateComboMultiplier` on the stored `consecutiveBounces` (which gives 1).
The reducer spreads the partial payload over the score data unchecked. -/
theorem C5_update_score_breaks_invariant_counterexample :
    (dispatch zeroOracle zeroOracle 0 createInitialGameData
        (GameAction.UPDATE_SCORE multiplierOnlyPatch)).scoreData.multiplier
      ≠ calculateComboMultiplier
          (dispatch zeroOracle zeroOracle 0 createInitialGameData
            (GameAction.UPDATE_SCORE multiplierOnlyPatch)).scoreData.consecutiveBounces := by
  simp [dispatch, applyScorePatch, multiplierOnlyPatch, createInitialGameData,
    createInitialScoreData, calculateComboMultiplier]

/-- C5 (amended): the invariant multiplier = calculateComboMultiplier
(consecutiveBounces) holds in every state reachable from the initial state
through the dispatcher when `UPDATE_SCORE` payloads leave `multiplier` and
`consecutiveBounces` unset, as every `UPDATE_SCORE` emitted in the repository
does. -/
theorem C5_multiplier_invariant (st : GameData) (h : ReachableSafe st) :
    st.scoreData.multiplier = calculateComboMultiplier st.scoreData.consecutiveBounces := by
  induction h with
  | init =>
    show (1 : ℚ) = calculateComboMultiplier 0
    norm_num [calculateComboMultiplier]
  | step cosDeg sinDeg now a st hst hsafe ih =>
    cases a with
    | START_GAME =>
      show (1 : ℚ) = calculateComboMultiplier 0
      norm_num [calculateComboMultiplier]
    | RESET_GAME =>
      show (1 : ℚ) = calculateComboMultiplier 0
      norm_num [calculateComboMultiplier]
    | BALL_BOUNCE surface hitPosition => exact rfl
    | RESET_COMBO =>
      show (1 : ℚ) = calculateComboMultiplier 0
      norm_num [calculateComboMultiplier]
    | NEXT_LEVEL =>
      cases hfind : st.config.levels.find? (fun l => l.level = st.scoreData.level + 1) with
      | none => simpa [dispatch, hfind, updateHighScore] using ih
      | some c =>
        simp only [dispatch, hfind, nextLevel]
        show (1 : ℚ) = calculateComboMultiplier 0
        norm_num [calculateComboMultiplier]
    | UPDATE_SCORE p =>
      obtain ⟨hm, hc⟩ := hsafe
      simpa [dispatch, applyScorePatch, hm, hc] using ih
    | LOSE_LIFE => simpa [dispatch, loseLife] using ih
    | GAME_OVER => simpa [dispatch, updateHighScore] using ih
    | UPDATE_TIME => simpa [dispatch] using ih
    | ENTER_AIMING => exact ih
    | LAUNCH_BALL angle power => exact ih
    | PAUSE_GAME => exact ih
    | RESUME_GAME => exact ih
    | UPDATE_BALL_PHYSICS payload => exact ih
    | UPDATE_PLATFORM_POSITION payload => exact ih
    | SET_GAME_STATE payload => exact ih
    | SET_COLLISION_STATE payload => exact ih
    | UPDATE_AIM_DATA payload => exact ih
    | UPDATE_CONTROL_STATE payload => exact ih
    | UPDATE_SHIELD_BOUNCES payload => exact ih
    | SET_MAGNETIC_RANGE payload => exact ih

/-- C5 witness: the invariant applied at the initial state. -/
theorem C5_multiplier_invariant_witness :
    createInitialGameData.scoreData.multiplier
      = calculateComboMultiplier createInitialGameData.scoreData.consecutiveBounces :=
  C5_multiplier_invariant createInitialGameData ReachableSafe.init

/-- C1: the shield is never implemented by the state machine.  Collecting a
shield dispatches `UPDATE_SHIELD_BOUNCES 5`, but the reducer has no case for
that action — it is the identity on the state for every payload — and the
tick's floor check dispatches `LOSE_LIFE` unconditionally.  Concretely: in a
PLAYING state with 3 lives whose ball crosses the floor, dispatching
`UPDATE_SHIELD_BOUNCES 5` and then running the floor-crossing tick still
loses a life (lives 3 → 2); no shield count exists to decrement. -/
theorem C1_shield_never_absorbs_floor_hit :
    (∀ (cosDeg sinDeg : ℚ → ℚ) (now : ℚ) (st : GameData) (n : ℚ),
        dispatch cosDeg sinDeg now st (GameAction.UPDATE_SHIELD_BOUNCES n) = st) ∧
    (tickNet zeroOracle zeroOracle
        (dispatch zeroOracle zeroOracle 0 shieldFloorState (GameAction.UPDATE_SHIELD_BOUNCES 5))
        1 0).scoreData.lives = 2 := by
  constructor
  · intro _ _ _ _ _
    rfl
  · show (tickNet zeroOracle zeroOracle shieldFloorState 1 0).scoreData.lives = 2
    norm_num [tickNet, gameTick, tickCollisions, prevWithMutatedBall, updateBallPhysics,
      checkPlatformCollision, checkWallCollision, checkCeilingCollision, checkFloorCollision,
      clamp, dispatch, loseLife, shieldFloorState, floorTickState, createInitialGameData,
      createInitialScoreData, createDefaultGameConfig, createLevelConfigs,
      createInitialBallPhysics, createInitialPlatform, createInitialCollisionState,
      createInitialAimData, createInitialControlState, zeroOracle, List.headI]

/-- C2 (counterexample): a floor-crossing tick in PLAYING with lives = 1,
score = 10 and high score 0 ends with lives 0 and phase GAME_OVER — but the
resulting high score is still 0, not `max(highScore, score) = 10`: the
`LOSE_LIFE` reducer case never applies `updateHighScore`. -/
theorem C2_high_score_not_updated_counterexample :
    floorTickState.gameState = GameState.PLAYING ∧
    floorTickState.scoreData.lives = 1 ∧
    checkFloorCollision (tickCollisions floorTickState 1).1 floorTickState.config = true ∧
    (tickNet zeroOracle zeroOracle floorTickState 1 0).scoreData.highScore
      ≠ max floorTickState.scoreData.highScore floorTickState.scoreData.score := by
  refine ⟨rfl, rfl, ?_, ?_⟩
  · norm_num [tickCollisions, updateBallPhysics, checkPlatformCollision, checkWallCollision,
      checkCeilingCollision, checkFloorCollision, clamp, floorTickState, createInitialGameData,
      createInitialScoreData, createDefaultGameConfig, createLevelConfigs,
      createInitialBallPhysics, createInitialPlatform, createInitialCollisionState,
      createInitialAimData, createInitialControlState, List.headI]
  · norm_num [tickNet, gameTick, tickCollisions, prevWithMutatedBall, updateBallPhysics,
      checkPlatformCollision, checkWallCollision, checkCeilingCollision, checkFloorCollision,
      clamp, dispatch, loseLife, floorTickState, createInitialGameData,
      createInitialScoreData, createDefaultGameConfig, createLevelConfigs,
      createInitialBallPhysics, createInitialPlatform, createInitialCollisionState,
      createInitialAimData, createInitialControlState, zeroOracle, List.headI]

/-- C2 (amended): if lives = 1 and a floor-crossing tick occurs while the
phase is PLAYING (and the level timer has not expired), then after the tick's
queued `LOSE_LIFE` dispatch the state has lives = 0 and phase = GAME_OVER,
while the high score is left unchanged (`updateHighScore` is not applied on
this path). -/
theorem C2_floor_tick_at_one_life (cosDeg sinDeg : ℚ → ℚ) (prev : GameData) (deltaTime now : ℚ)
    (hplay : prev.gameState = GameState.PLAYING)
    (hlives : prev.scoreData.lives = 1)
    (htime : ¬ (now - prev.levelStartTime) / 1000 ≥ prev.currentLevel.timeLimit)
    (hfloor : checkFloorCollision (tickCollisions prev deltaTime).1 prev.config = true) :
    (tickNet cosDeg sinDeg prev deltaTime now).scoreData.lives = 0 ∧
    (tickNet cosDeg sinDeg prev deltaTime now).gameState = GameState.GAME_OVER ∧
    (tickNet cosDeg sinDeg prev deltaTime now).scoreData.highScore
      = prev.scoreData.highScore := by
  have hgt : gameTick prev deltaTime now =
      (prevWithMutatedBall prev deltaTime,
        (tickCollisions prev deltaTime).2.1 ++ [GameAction.LOSE_LIFE]) := by
    simp [gameTick, hplay, htime, hfloor]
  have hpres := foldl_bounceActs_preserves cosDeg sinDeg now
    (tickCollisions prev deltaTime).2.1 (tickCollisions_acts_bounce prev deltaTime)
    (prevWithMutatedBall prev deltaTime)
  have hfold : tickNet cosDeg sinDeg prev deltaTime now =
      dispatch cosDeg sinDeg now
        ((tickCollisions prev deltaTime).2.1.foldl (dispatch cosDeg sinDeg now)
          (prevWithMutatedBall prev deltaTime))
        GameAction.LOSE_LIFE := by
    rw [tickNet, hgt]
    rw [List.foldl_append]
    rfl
  have hmidlives : ((tickCollisions prev deltaTime).2.1.foldl (dispatch cosDeg sinDeg now)
      (prevWithMutatedBall prev deltaTime)).scoreData.lives = 1 := by
    rw [hpres.1]
    exact hlives
  have hmidhs : ((tickCollisions prev deltaTime).2.1.foldl (dispatch cosDeg sinDeg now)
      (prevWithMutatedBall prev deltaTime)).scoreData.highScore
      = prev.scoreData.highScore := hpres.2.1
  refine ⟨?_, ?_, ?_⟩
  · rw [hfold]
    simp [dispatch, loseLife, hmidlives]
  · rw [hfold]
    simp [dispatch, loseLife, hmidlives]
  · rw [hfold]
    simp [dispatch, loseLife, hmidhs]

/-- C2 witness: the amended tick theorem applied at the concrete
floor-crossing state. -/
theorem C2_floor_tick_at_one_life_witness :
    (tickNet zeroOracle zeroOracle floorTickState 1 0).scoreData.lives = 0 ∧
    (tickNet zeroOracle zeroOracle floorTickState 1 0).gameState = GameState.GAME_OVER ∧
    (tickNet zeroOracle zeroOracle floorTickState 1 0).scoreData.highScore
      = floorTickState.scoreData.highScore :=
  C2_floor_tick_at_one_life zeroOracle zeroOracle floorTickState 1 0 rfl rfl
    (by norm_num [floorTickState, createInitialGameData, createDefaultGameConfig,
      createLevelConfigs, List.headI])
    (by norm_num [tickCollisions, updateBallPhysics, checkPlatformCollision,
      checkWallCollision, checkCeilingCollision, checkFloorCollision, clamp, floorTickState,
      createInitialGameData, createInitialScoreData, createDefaultGameConfig,
      createLevelConfigs, createInitialBallPhysics, createInitialPlatform,
      createInitialCollisionState, createInitialAimData, createInitialControlState,
      List.headI])

end Bounce
